import Mathlib

/-!
Shallow embedding of the `cleepmod-messageboard` repository
(`backend/messageboard.py`, `backend/ht1632c.py`,
`backend/messageboardMessageUpdateEvent.py`) and proofs about it.

Python values that flow through message dictionaries are modelled by the
`Value` type (Python is dynamically typed: a `Message` field may hold
`None`, a string or a number).  Dictionaries are association lists.
Machine state that matters to the verified claims (current message
reference, in-memory message list, persisted configuration list, board
soft-power flag, per-panel cleared flags) is passed explicitly.
-/

/-- A dynamically-typed Python value as used by the messageboard dicts:
`None`, a unicode string, or an integer timestamp. -/
inductive Value where
  | vnone : Value
  | vstr : String → Value
  | vint : Int → Value
deriving DecidableEq, Repr

/-- A Python dict with string keys, as an association list (insertion order,
unique keys in all dicts the program builds). -/
abbrev Dict := List (String × Value)

/-- `d[k]` lookup: first entry with key `k`. -/
def dictGet (d : Dict) (k : String) : Option Value :=
  match d with
  | [] => Option.none
  | (k', v) :: rest => if k' = k then some v else dictGet rest k

/-- `d[k] = v` assignment: replaces the first entry with key `k`, appends if
the key is absent. -/
def dictSet (d : Dict) (k : String) (v : Value) : Dict :=
  match d with
  | [] => [(k, v)]
  | (k', v') :: rest => if k' = k then (k, v) :: rest else (k', v') :: dictSet rest k v

/-- `Message` object of `messageboard.py` (lines 17-51).  The constructor
`Message(message=None, start=None, end=None)` sets `displayed_time = 0`,
`dynamic = False` and a generated uuid. -/
structure Message where
  message : Value
  start : Value
  endTime : Value
  displayed_time : Value
  dynamic : Bool
  uuid : Value
deriving DecidableEq, Repr

/-- `Message.__init__`: `generatedUuid` models `unicode(uuid.uuid4())`. -/
def Message.init (message start endTime : Value) (generatedUuid : String) : Message :=
  { message := message
    start := start
    endTime := endTime
    displayed_time := Value.vint 0
    dynamic := false
    uuid := Value.vstr generatedUuid }

/-- `Message.to_dict` (messageboard.py lines 38-48): exactly the five keys
uuid/message/start/end/displayed_time, in that order. -/
def Message.to_dict (m : Message) : Dict :=
  [ ("uuid", m.uuid)
  , ("message", m.message)
  , ("start", m.start)
  , ("end", m.endTime)
  , ("displayed_time", m.displayed_time) ]

/-- `Message.from_dict` (messageboard.py lines 29-36): overwrites
message/start/end/uuid from the dict; `KeyError` on a missing key is
modelled by `Option.none`; `displayed_time` and `dynamic` are untouched. -/
def Message.from_dict (m : Message) (d : Dict) : Option Message :=
  match dictGet d "message", dictGet d "start", dictGet d "end", dictGet d "uuid" with
  | some msg, some s, some e, some u =>
      some { m with message := msg, start := s, endTime := e, uuid := u }
  | _, _, _, _ => Option.none

/-! ## Scheduling plugin state (`Messageboard` of `messageboard.py`)

The state visible to the verified operations: the persisted `messages`
configuration field (list of dicts), the in-memory `self.messages` mirror
(list of `Message` objects), the `self.__current_message` reference and the
driver's soft power flag `HT1632C.__turned_on` (queried via `is_on`). -/

structure PluginState where
  configMessages : List Dict
  messages : List Message
  currentMessage : Option Message
  boardOn : Bool
deriving DecidableEq, Repr

/-- Status record built by `Messageboard.get_current_message`
(messageboard.py lines 413-441).  The Python dict always carries the three
keys; `message` is `None` outside the final branch, modelled as `Option`. -/
structure CurrentStatus where
  nomessage : Bool
  off : Bool
  message : Option Dict
deriving DecidableEq, Repr

/-- `Messageboard.get_current_message` (lines 425-441): `nomessage` when the
current reference is `None`; otherwise `off` when `is_on()` is false;
otherwise the serialized current message. -/
def getCurrentMessage (s : PluginState) : CurrentStatus :=
  match s.currentMessage with
  | Option.none => { nomessage := true, off := false, message := Option.none }
  | some m =>
      if ¬ s.boardOn then { nomessage := false, off := true, message := Option.none }
      else { nomessage := false, off := false, message := some m.to_dict }

/-- Observable side effects of the power operations: driver calls in program
order, and the published event's parameter snapshot. -/
inductive PluginOutput where
  | boardTurnedOn : PluginOutput
  | boardTurnedOff : PluginOutput
  | boardCleared : PluginOutput
  | eventSent (params : CurrentStatus) : PluginOutput
deriving DecidableEq, Repr

/-- `Messageboard.turn_on` (lines 443-454): `board.turn_on()`, then
`__current_message = None`, then push the event with the fresh
`get_current_message()` snapshot. -/
def turnOn (s : PluginState) : PluginState × List PluginOutput :=
  let s1 : PluginState := { s with boardOn := true }
  let s2 : PluginState := { s1 with currentMessage := Option.none }
  (s2, [PluginOutput.boardTurnedOn, PluginOutput.eventSent (getCurrentMessage s2)])

/-- `Messageboard.turn_off` (lines 456-467): `board.clear()`, then
`board.turn_off()` (which clears again inside the driver), then push the
event; the current-message reference is left untouched. -/
def turnOff (s : PluginState) : PluginState × List PluginOutput :=
  let s1 : PluginState := { s with boardOn := false }
  (s1, [PluginOutput.boardCleared, PluginOutput.boardTurnedOff,
        PluginOutput.eventSent (getCurrentMessage s1)])

/-- Python exceptions that `delete_message` can actually raise. -/
inductive PyError where
  | nameError : PyError
  | attributeError : PyError
deriving DecidableEq, Repr

/-- First loop of `delete_message` (lines 321-328): remove the first config
dict whose `uuid` equals the argument. -/
def deleteFromConfig (ds : List Dict) (uid : String) : List Dict :=
  match ds with
  | [] => []
  | d :: rest =>
      if dictGet d "uuid" = some (Value.vstr uid) then rest
      else d :: deleteFromConfig rest uid

/-- Second loop of `delete_message` (lines 331-334): remove the first
in-memory `Message` whose `uuid` equals the argument. -/
def deleteFromMessages (ms : List Message) (uid : String) : List Message :=
  match ms with
  | [] => []
  | m :: rest =>
      if m.uuid = Value.vstr uid then rest
      else m :: deleteFromMessages rest uid

/-- The debug-log line `self.logger.debug(u'Message "%s" deleted' % msg.message)`
(line 336) reads `msg.message` on whatever the last loop bound: a `Message`
when `self.messages` is non-empty (fine), the last config dict when only the
config list is non-empty (`AttributeError`: dicts have no `message`
attribute), and an unbound name when both lists are empty (`NameError`). -/
def deleteLogError (s : PluginState) : Option PyError :=
  if s.messages ≠ [] then Option.none
  else if s.configMessages ≠ [] then some PyError.attributeError
  else some PyError.nameError

/-- `Messageboard.delete_message` (lines 308-338).  Returns the state after
the removals (they happen before the log line), the `deleted` flag, and the
exception the final log line raises, if any (raising suppresses the return
value but not the earlier mutations). -/
def deleteMessage (s : PluginState) (uid : String) :
    PluginState × Bool × Option PyError :=
  let deleted := s.configMessages.any (fun d => dictGet d "uuid" = some (Value.vstr uid))
  let config' := if deleted then deleteFromConfig s.configMessages uid else s.configMessages
  let messages' := deleteFromMessages s.messages uid
  ({ s with configMessages := config', messages := messages' }, deleted, deleteLogError s)

/-- Config loop of `add_or_replace_message` (messageboard.py lines 358-365):
replace `message`/`start`/`end` in the first dict whose `uuid` matches, in
that assignment order. -/
def replaceInConfig (ds : List Dict) (uid text : String) (start endT : Int) : List Dict :=
  match ds with
  | [] => []
  | d :: rest =>
      if dictGet d "uuid" = some (Value.vstr uid) then
        dictSet (dictSet (dictSet d "message" (Value.vstr text))
          "start" (Value.vint start)) "end" (Value.vint endT) :: rest
      else d :: replaceInConfig rest uid text start endT

/-- Memory loop of `add_or_replace_message` (lines 373-380): every in-memory
`Message` with the matching uuid gets the new text and window (no `break`). -/
def replaceInMessages (ms : List Message) (uid text : String) (start endT : Int) :
    List Message :=
  ms.map (fun m =>
    if m.uuid = Value.vstr uid then
      { m with message := Value.vstr text, start := Value.vint start,
               endTime := Value.vint endT }
    else m)

/-- `Messageboard.add_or_replace_message` (lines 340-398).  `now` models
`int(time.time())`; `generatedUuid` models the uuid the `Message`
constructor would generate on the add path (immediately overwritten by
`msg.uuid = uuid`).  Returns the new state and the `replaced` flag. -/
def addOrReplaceMessage (s : PluginState) (text uid : String) (now : Int)
    (generatedUuid : String) : PluginState × Bool :=
  let start := now
  let endT := now + 604800
  let replaced := s.configMessages.any (fun d => dictGet d "uuid" = some (Value.vstr uid))
  if replaced then
    let config' := replaceInConfig s.configMessages uid text start endT
    let messages' := replaceInMessages s.messages uid text start endT
    let current' := if s.messages.any (fun m => m.uuid = Value.vstr uid)
      then Option.none else s.currentMessage
    ({ s with configMessages := config', messages := messages',
              currentMessage := current' }, true)
  else
    let msg := { Message.init (Value.vstr text) (Value.vint start) (Value.vint endT)
                   generatedUuid with uuid := Value.vstr uid }
    ({ s with configMessages := s.configMessages ++ [msg.to_dict],
              messages := s.messages ++ [msg] }, false)

/-! ## `save_configuration` (messageboard.py lines 478-513) -/

/-- The two exception classes `save_configuration` raises. -/
inductive ConfigError where
  | missingParameter : ConfigError
  | invalidParameter : ConfigError
deriving DecidableEq, Repr

/-- `Messageboard.SPEEDS` (lines 87-91): per-column scroll delays in
seconds. -/
def SPEEDS : List (String × Rat) :=
  [ ("slow", 1/400), ("normal", 1/200), ("fast", 3/400) ]

/-- Successful outcome of `save_configuration`: the persisted fields, the
delay pushed to `board.set_scroll_speed`, and the period of the restarted
display task. -/
structure SaveResult where
  duration : Rat
  speed : String
  scrollSpeed : Rat
  taskPeriod : Rat
deriving DecidableEq, Repr

/-- `Messageboard.save_configuration` (lines 478-513): validation in source
order, then persist both fields, push the speed's delay to the driver and
restart the display task with `float(duration)` as period. -/
def saveConfiguration (duration : Option Rat) (speed : Option String) :
    Except ConfigError SaveResult :=
  match duration with
  | Option.none => Except.error ConfigError.missingParameter
  | some d =>
      if d < 5 ∨ 60 < d then Except.error ConfigError.invalidParameter
      else match speed with
        | Option.none => Except.error ConfigError.missingParameter
        | some sp =>
            if sp.length = 0 then Except.error ConfigError.missingParameter
            else match (SPEEDS.lookup sp) with
              | Option.none => Except.error ConfigError.invalidParameter
              | some delay =>
                  Except.ok { duration := d, speed := sp, scrollSpeed := delay,
                              taskPeriod := d }

/-- `MessageboardMessageUpdateEvent._check_params`
(messageboardMessageUpdateEvent.py lines 25-35): every key of the params
dict must be one of `nomessage`, `off`, `message`. -/
def checkParams (paramKeys : List String) : Bool :=
  paramKeys.all (fun key => key ∈ ["nomessage", "off", "message"])

/-! ## Hardware driver rendering (`ht1632c.py`) -/

/-- `FONT5x7` (ht1632c.py lines 148-326): indexed by code point; 177 entries.
Indices 0-31 and 128-175 hold empty lists; indices 32-127 hold the printable
ASCII glyphs (index 127 is a blank 5-byte glyph); index 176 is the degree
sign. -/
def FONT5x7 : List (List Nat) :=
  List.replicate 32 [] ++
  [ [0x00,0x00,0x00,0x00,0x00]
  , [0x00,0x00,0xfa,0x00,0x00]
  , [0x00,0xe0,0x00,0xe0,0x00]
  , [0x28,0xfe,0x28,0xfe,0x28]
  , [0x24,0x54,0xfe,0x54,0x48]
  , [0xc4,0xc8,0x10,0x26,0x46]
  , [0x6c,0x92,0xaa,0x44,0x0a]
  , [0x00,0xa0,0xc0,0x00,0x00]
  , [0x00,0x38,0x44,0x82,0x00]
  , [0x00,0x82,0x44,0x38,0x00]
  , [0x10,0x54,0x38,0x54,0x10]
  , [0x10,0x10,0x7c,0x10,0x10]
  , [0x00,0x0a,0x0c,0x00,0x00]
  , [0x10,0x10,0x10,0x10,0x10]
  , [0x00,0x06,0x06,0x00,0x00]
  , [0x04,0x08,0x10,0x20,0x40]
  , [0x7c,0x8a,0x92,0xa2,0x7c]
  , [0x00,0x42,0xfe,0x02,0x00]
  , [0x42,0x86,0x8a,0x92,0x62]
  , [0x84,0x82,0xa2,0xd2,0x8c]
  , [0x18,0x28,0x48,0xfe,0x08]
  , [0xe4,0xa2,0xa2,0xa2,0x9c]
  , [0x3c,0x52,0x92,0x92,0x0c]
  , [0x80,0x8e,0x90,0xa0,0xc0]
  , [0x6c,0x92,0x92,0x92,0x6c]
  , [0x60,0x92,0x92,0x94,0x78]
  , [0x00,0x6c,0x6c,0x00,0x00]
  , [0x00,0x6a,0x6c,0x00,0x00]
  , [0x00,0x10,0x28,0x44,0x82]
  , [0x28,0x28,0x28,0x28,0x28]
  , [0x82,0x44,0x28,0x10,0x00]
  , [0x40,0x80,0x8a,0x90,0x60]
  , [0x4c,0x92,0x9e,0x82,0x7c]
  , [0x7e,0x88,0x88,0x88,0x7e]
  , [0xfe,0x92,0x92,0x92,0x6c]
  , [0x7c,0x82,0x82,0x82,0x44]
  , [0xfe,0x82,0x82,0x44,0x38]
  , [0xfe,0x92,0x92,0x92,0x82]
  , [0xfe,0x90,0x90,0x80,0x80]
  , [0x7c,0x82,0x82,0x8a,0x4c]
  , [0xfe,0x10,0x10,0x10,0xfe]
  , [0x00,0x82,0xfe,0x82,0x00]
  , [0x04,0x02,0x82,0xfc,0x80]
  , [0xfe,0x10,0x28,0x44,0x82]
  , [0xfe,0x02,0x02,0x02,0x02]
  , [0xfe,0x40,0x20,0x40,0xfe]
  , [0xfe,0x20,0x10,0x08,0xfe]
  , [0x7c,0x82,0x82,0x82,0x7c]
  , [0xfe,0x90,0x90,0x90,0x60]
  , [0x7c,0x82,0x8a,0x84,0x7a]
  , [0xfe,0x90,0x98,0x94,0x62]
  , [0x62,0x92,0x92,0x92,0x8c]
  , [0x80,0x80,0xfe,0x80,0x80]
  , [0xfc,0x02,0x02,0x02,0xfc]
  , [0xf8,0x04,0x02,0x04,0xf8]
  , [0xfe,0x04,0x18,0x04,0xfe]
  , [0xc6,0x28,0x10,0x28,0xc6]
  , [0xc0,0x20,0x1e,0x20,0xc0]
  , [0x86,0x8a,0x92,0xa2,0xc2]
  , [0x00,0x00,0xfe,0x82,0x82]
  , [0x40,0x20,0x10,0x08,0x04]
  , [0x82,0x82,0xfe,0x00,0x00]
  , [0x60,0x90,0x90,0x60,0x00]
  , [0x02,0x02,0x02,0x02,0x02]
  , [0x00,0x80,0x40,0x20,0x00]
  , [0x04,0x2a,0x2a,0x2a,0x1e]
  , [0xfe,0x12,0x22,0x22,0x1c]
  , [0x1c,0x22,0x22,0x22,0x04]
  , [0x1c,0x22,0x22,0x12,0xfe]
  , [0x1c,0x2a,0x2a,0x2a,0x18]
  , [0x10,0x7e,0x90,0x80,0x40]
  , [0x10,0x28,0x2a,0x2a,0x3c]
  , [0xfe,0x10,0x20,0x20,0x1e]
  , [0x00,0x22,0xbe,0x02,0x00]
  , [0x04,0x02,0x22,0xbc,0x00]
  , [0x00,0xfe,0x08,0x14,0x22]
  , [0x00,0x82,0xfe,0x02,0x00]
  , [0x3e,0x20,0x18,0x20,0x1e]
  , [0x3e,0x10,0x20,0x20,0x1e]
  , [0x1c,0x22,0x22,0x22,0x1c]
  , [0x3e,0x28,0x28,0x28,0x10]
  , [0x10,0x28,0x28,0x18,0x3e]
  , [0x3e,0x10,0x20,0x20,0x10]
  , [0x12,0x2a,0x2a,0x2a,0x04]
  , [0x20,0xfc,0x22,0x02,0x04]
  , [0x3c,0x02,0x02,0x04,0x3e]
  , [0x38,0x04,0x02,0x04,0x38]
  , [0x3c,0x02,0x0c,0x02,0x3c]
  , [0x22,0x14,0x08,0x14,0x22]
  , [0x30,0x0a,0x0a,0x0a,0x3c]
  , [0x22,0x26,0x2a,0x32,0x22]
  , [0x00,0x10,0x6c,0x82,0x00]
  , [0x00,0x00,0xfe,0x00,0x00]
  , [0x00,0x82,0x6c,0x10,0x00]
  , [0x00,0x00,0x00,0x00,0x00]
  , [0x00,0x00,0x00,0x00,0x00] ] ++
  List.replicate 48 [] ++
  [ [0x00,0x40,0xA0,0x40,0x00] ]

/-- `FONT_INVALID` (ht1632c.py line 328). -/
def FONT_INVALID : List Nat := [0x28,0xfe,0x28,0xfe,0x28]

/-- `LOGOS` (ht1632c.py lines 330-361): token string to column bitmap. -/
def LOGOS : List (String × List Nat) :=
  [ (":)", [0x3C,0x42,0xA9,0x85,0xA5,0x89,0x42,0x3C])
  , (":(", [0x3C,0x42,0xA5,0x89,0xA9,0x85,0x42,0x3C])
  , (":D", [0x3C,0x42,0xAD,0x85,0xA5,0x8D,0x42,0x3C])
  , (":]", [0x3C,0x42,0xAD,0x85,0xA5,0x8D,0x42,0x3C])
  , (":|", [0x3C,0x42,0xA5,0x85,0xA5,0x85,0x42,0x3C])
  , (":[", [0x3C,0x42,0xAD,0x89,0xA9,0x8D,0x42,0x3C])
  , (":o", [0x3C,0x42,0xA1,0x8D,0xAD,0x81,0x42,0x3C])
  , (":O", [0x3C,0x42,0xAD,0x8D,0xAD,0x8D,0x42,0x3C])
  , (":shit", [0x06,0x0D,0x15,0xD5,0xB5,0x95,0x41,0x32,0x0C])
  , (":skull", [0x78,0xDF,0xDE,0xF7,0xDE,0xDF,0x78])
  , (":alien", [0x78,0xCC,0xE6,0xFF,0xE6,0xCC,0x78])
  , (":heart", [0x70,0x88,0x84,0x82,0x41,0x82,0x84,0x88,0x70])
  , (":cat", [0x1c,0x62,0x89,0x59,0x23,0x2b,0x59,0x81,0x62,0x1c])
  , (":bat", [0x78,0x84,0x88,0x90,0x88,0x44,0x48,0x2c,0xfe,0x41,0x2b,0x23,0x2b,0x41,0xfe,0x2c,0x48,0x44,0x88,0x90,0x88,0x84,0x78])
  , (":clock", [0x10,0x22,0x41,0x79,0x49,0x2A,0x1C])
  , (":left", [0x18,0x3C,0x7E,0xFF,0x3C,0x3C,0x3C])
  , (":right", [0x3C,0x3C,0x3C,0xFF,0x7E,0x3C,0x18])
  , (":up", [0x10,0x30,0x7F,0xFF,0xFF,0x7F,0x30,0x10])
  , (":down", [0x08,0x0C,0xFE,0xFF,0xFF,0xFE,0x0C,0x08])
  , (":sunny", [0x08,0x89,0x5a,0x24,0xc2,0x43,0x24,0x5a,0x91,0x10])
  , (":rainy", [0x39,0x46,0x85,0x86,0x85,0x66,0x25,0x26,0x18])
  , (":cloudy", [0x38,0x44,0x84,0x84,0x84,0x64,0x24,0x24,0x18])
  , (":stormy", [0x18,0x2b,0x5e,0x94,0x98,0x8b,0x5e,0x54,0x38])
  , (":foggy", [0x34,0x4c,0x95,0x95,0x95,0x75,0x31,0x11,0x11])
  , (":snowy", [0x32,0x4d,0x8a,0x8d,0x8a,0x6d,0x2a,0x2d,0x10])
  , (":night", [0x3c,0x42,0x99,0xa5,0xc3,0x42]) ]

/-- `PATTERN_REPLACEMENT = '^'` (ht1632c.py line 362), as a code point. -/
def PATTERN_REPLACEMENT_CODE : Nat := 94

/-- Python-2 `letter.decode('utf-8')` applied to a one-character unicode
string: the implicit ASCII encode succeeds exactly for code points 0-127
(and a single byte at 128-255 is never a valid UTF-8 sequence), so the
decode yields the code point below 128 and raises otherwise. -/
def pyDecodeSingleChar (c : Nat) : Option Nat :=
  if c ≤ 127 then some c else Option.none

/-- Columns `HT1632C.__append_letter` (ht1632c.py lines 690-714) writes for
one character: nothing for the pattern placeholder; otherwise the glyph
table entry at the decoded code point, with `FONT_INVALID` when the decode
or the table indexing raises (the `except` arm). -/
def appendLetterColumns (letter : Nat) : List Nat :=
  if letter = PATTERN_REPLACEMENT_CODE then []
  else
    match pyDecodeSingleChar letter with
    | Option.none => FONT_INVALID
    | some cp =>
        match FONT5x7.get? cp with
        | Option.none => FONT_INVALID
        | some glyph => glyph

/-- Columns `HT1632C.__append_logo` (lines 716-733) writes: `LOGOS[logo]`
(pattern extraction only records keys of the table, so the `KeyError` case
cannot arise; it is modelled as no columns). -/
def appendLogoColumns (logo : String) : List Nat :=
  match LOGOS.lookup logo with
  | some bitmap => bitmap
  | Option.none => []

/-- Columns `HT1632C.__append_text` (lines 735-751) writes: one
`__append_letter` per character of the substituted text. -/
def appendTextColumns (text : List Nat) : List Nat :=
  (text.map appendLetterColumns).flatten

/-- One entry of the pattern map built by `__search_for_patterns`: a logo
token, or substituted dynamic text (as code points). -/
inductive PatternEntry where
  | logo (value : String) : PatternEntry
  | ptext (value : List Nat) : PatternEntry
deriving DecidableEq, Repr

/-- Columns contributed by one recorded pattern. -/
def patternColumns (e : PatternEntry) : List Nat :=
  match e with
  | PatternEntry.logo v => appendLogoColumns v
  | PatternEntry.ptext t => appendTextColumns t

/-- The per-index walk shared by `__get_message_length` (lines 845-867) and
the buffer-fill loops of `display_message` (lines 928-935 and 950-957):
an index recorded in the pattern map contributes its pattern's columns,
any other index goes through `__append_letter`.  Writes are contiguous
from the starting position, so the buffer content is the concatenation of
the contributions. -/
def messageWalkFrom (patterns : List (Nat × PatternEntry)) (message : List Nat)
    (index : Nat) : List Nat :=
  match message with
  | [] => []
  | c :: rest =>
      (match patterns.lookup index with
       | some e => patternColumns e
       | Option.none => appendLetterColumns c) ++ messageWalkFrom patterns rest (index + 1)

/-- Column buffer produced for a pre-processed message. -/
def messageColumns (patterns : List (Nat × PatternEntry)) (message : List Nat) :
    List Nat :=
  messageWalkFrom patterns message 0

/-- `HT1632C.__get_message_length` (lines 845-867): the same walk run with
`buf = None`, accumulating only the position. -/
def messageLengthFrom (patterns : List (Nat × PatternEntry)) (message : List Nat)
    (index : Nat) : Nat :=
  match message with
  | [] => 0
  | c :: rest =>
      (match patterns.lookup index with
       | some e => (patternColumns e).length
       | Option.none => (appendLetterColumns c).length) + messageLengthFrom patterns rest (index + 1)

/-- Message length as computed before placement decisions. -/
def getMessageLength (patterns : List (Nat × PatternEntry)) (message : List Nat) : Nat :=
  messageLengthFrom patterns message 0

/-- Payload byte `i+2` of the 34-byte pixel-write frame
(`HT1632C.__write_pixels_to_panel`, ht1632c.py line 629):
`((pixels[i] << 6) & 0xC0) | ((pixels[(i+1) % 32] >> 2) & 0x3F)`. -/
def pixelPayloadByte (pixels : List Nat) (i : Nat) : Nat :=
  ((pixels.getD i 0 <<< 6) &&& 0xC0) ||| ((pixels.getD ((i + 1) % 32) 0 >>> 2) &&& 0x3F)

/-- The 32 payload bytes `buf[2:]` of the frame. -/
def pixelPayload (pixels : List Nat) : List Nat :=
  (List.range 32).map (pixelPayloadByte pixels)

/-- `HT1632C.__write_pixels_to_panel` (lines 614-655), suppression logic:
given the panel's cached `__panel_cleared` flag and the 32-byte column
buffer, returns whether an SPI transaction is issued and the new flag.
`np.count_nonzero(buf[2:]) == 0` and the flag set elide the write; an
all-zero payload with the flag clear transmits and sets the flag; a
non-zero payload transmits and clears the flag. -/
def writePixelsToPanel (cleared : Bool) (pixels : List Nat) : Bool × Bool :=
  if (pixelPayload pixels).all (fun b => b == 0) then
    if ¬ cleared then (true, true)
    else (false, cleared)
  else (true, false)

/-- A sequence of writes to one panel: total SPI transactions issued and the
final cleared flag. -/
def runPanelWrites (cleared : Bool) (writes : List (List Nat)) : Nat × Bool :=
  match writes with
  | [] => (0, cleared)
  | p :: rest =>
      let step := writePixelsToPanel cleared p
      let tail := runPanelWrites step.2 rest
      ((if step.1 then 1 else 0) + tail.1, tail.2)

/-! ## Helper lemmas -/

/-- `dictSet` then `dictGet` at the same key yields the assigned value. -/
theorem dictGet_dictSet_same (d : Dict) (k : String) (v : Value) :
    dictGet (dictSet d k v) k = some v := by
  induction d with
  | nil => simp [dictSet, dictGet]
  | cons hd tl ih =>
      obtain ⟨k', v'⟩ := hd
      by_cases h : k' = k
      · subst h
        simp [dictSet, dictGet]
      · simp [dictSet, dictGet, h, ih]

/-- `dictSet` leaves other keys untouched. -/
theorem dictGet_dictSet_ne (d : Dict) (k k' : String) (v : Value) (h : k' ≠ k) :
    dictGet (dictSet d k v) k' = dictGet d k' := by
  induction d with
  | nil => simp [dictSet, dictGet, Ne.symm h]
  | cons hd tl ih =>
      obtain ⟨k0, v0⟩ := hd
      by_cases h0 : k0 = k
      · subst h0
        simp [dictSet, dictGet, Ne.symm h]
      · simp only [dictSet, if_neg h0, dictGet]
        by_cases h1 : k0 = k'
        · simp [h1]
        · simp [h1, ih]

/-- Claim C9: `to_dict` writes exactly the five fields uuid, message, start,
end, displayed_time (and no `dynamic`), and reloading its output into a
fresh `Message` restores uuid/message/start/end while `displayed_time`
stays 0 and `dynamic` stays false, whatever they were in the source. -/
theorem to_dict_from_dict_roundtrip (m : Message) (g : String) :
    (m.to_dict.map Prod.fst = ["uuid", "message", "start", "end", "displayed_time"]) ∧
    (Message.from_dict (Message.init Value.vnone Value.vnone Value.vnone g) m.to_dict =
      some { message := m.message, start := m.start, endTime := m.endTime,
             displayed_time := Value.vint 0, dynamic := false, uuid := m.uuid }) := by
  constructor
  · rfl
  · simp [Message.to_dict, Message.from_dict, Message.init, dictGet]

/-- Claim C8: the Message-Update Event accepts a parameter dict exactly when
every key belongs to {nomessage, off, message}; in particular the full
payload and the empty payload are accepted and any extra key is rejected. -/
theorem checkParams_iff :
    (∀ keys : List String,
      checkParams keys = true ↔ ∀ k ∈ keys, k = "nomessage" ∨ k = "off" ∨ k = "message") ∧
    checkParams ["nomessage", "off", "message"] = true ∧
    checkParams ["nomessage", "off", "message", "extra"] = false ∧
    checkParams [] = true := by
  refine ⟨fun keys => ?_, by decide, by decide, by decide⟩
  simp [checkParams, List.all_eq_true]

/-! ## Concrete states used by counterexamples and witnesses -/

/-- A sample stored message with uuid `"u1"`. -/
def exampleMessage : Message :=
  Message.init (Value.vstr "hello") (Value.vint 0) (Value.vint 1000) "u1"

/-- Board on, `exampleMessage` stored and currently shown. -/
def exampleOnState : PluginState :=
  { configMessages := [exampleMessage.to_dict]
    messages := [exampleMessage]
    currentMessage := some exampleMessage
    boardOn := true }

/-- Board off, `exampleMessage` stored and currently shown. -/
def exampleOffSelState : PluginState :=
  { configMessages := [exampleMessage.to_dict]
    messages := [exampleMessage]
    currentMessage := some exampleMessage
    boardOn := false }

/-- Board off, nothing ever selected. -/
def exampleOffNoSelState : PluginState :=
  { configMessages := [], messages := [], currentMessage := Option.none, boardOn := false }

/-- Fresh plugin with no stored messages. -/
def emptyPluginState : PluginState :=
  { configMessages := [], messages := [], currentMessage := Option.none, boardOn := true }

/-- Claim C1 counterexample: from a state where a message is currently shown,
`turn_off` returns with the currently-shown reference still set (not `None`),
and the status snapshot it publishes reports `nomessage = false` — the claim
that both power operations leave the reference cleared is false for
`turn_off`. -/
theorem turnOff_keeps_current_counterexample :
    (turnOff exampleOnState).1.currentMessage = some exampleMessage ∧
    (getCurrentMessage (turnOff exampleOnState).1).nomessage = false ∧
    (turnOff exampleOnState).2 =
      [PluginOutput.boardCleared, PluginOutput.boardTurnedOff,
       PluginOutput.eventSent { nomessage := false, off := true, message := Option.none }] := by
  refine ⟨rfl, rfl, ?_⟩
  rfl

/-- Claim C1 amended: `turn_on` clears the currently-shown reference (so
`get_current_message` reports `nomessage = true` until the next display
cycle) and publishes a Message-Update Event after powering the driver on;
`turn_off` clears the board, powers the driver off and publishes the event,
but leaves the currently-shown reference unchanged. -/
theorem power_operations_behaviour (s : PluginState) :
    ((turnOn s).1.currentMessage = Option.none) ∧
    ((turnOn s).1.boardOn = true) ∧
    ((getCurrentMessage (turnOn s).1).nomessage = true) ∧
    ((turnOn s).2 = [PluginOutput.boardTurnedOn,
        PluginOutput.eventSent (getCurrentMessage (turnOn s).1)]) ∧
    ((turnOff s).1.currentMessage = s.currentMessage) ∧
    ((turnOff s).1.boardOn = false) ∧
    ((turnOff s).2 = [PluginOutput.boardCleared, PluginOutput.boardTurnedOff,
        PluginOutput.eventSent (getCurrentMessage (turnOff s).1)]) := by
  refine ⟨rfl, rfl, rfl, rfl, rfl, rfl, rfl⟩

/-- Claim C3 counterexample: with the board off and nothing ever selected,
`get_current_message` reports `off = false` although the driver's soft power
state is off — the claimed equivalence "`off` true iff the driver is off"
fails. -/
theorem getCurrentMessage_off_counterexample :
    exampleOffNoSelState.boardOn = false ∧
    (getCurrentMessage exampleOffNoSelState).off = false := by
  exact ⟨rfl, rfl⟩

/-- Claim C3 amended: `nomessage` is true iff no message has ever been
selected; `off` is true iff a selection exists AND the driver is off (the
`nomessage` branch wins when nothing is selected, leaving `off` false even
with the board off); the `message` field is filled with the serialized
current message exactly when a selection exists and the board is on. -/
theorem getCurrentMessage_characterisation (s : PluginState) :
    ((getCurrentMessage s).nomessage = true ↔ s.currentMessage = Option.none) ∧
    ((getCurrentMessage s).off = true ↔
        (s.currentMessage ≠ Option.none ∧ s.boardOn = false)) ∧
    (∀ m, s.currentMessage = some m → s.boardOn = false →
        (getCurrentMessage s).message = Option.none) ∧
    (∀ m, s.currentMessage = some m → s.boardOn = true →
        (getCurrentMessage s).message = some m.to_dict) ∧
    (s.currentMessage = Option.none → (getCurrentMessage s).message = Option.none) := by
  obtain ⟨cfg, msgs, cur, bOn⟩ := s
  cases cur with
  | none => simp [getCurrentMessage]
  | some m => cases bOn <;> simp [getCurrentMessage]

/-- Claim C3 witness: concrete instances of the amended characterisation —
with a selection and the board on the serialized message is returned; with a
selection and the board off the `message` field stays empty and `off` is
true. -/
theorem getCurrentMessage_characterisation_witness :
    (getCurrentMessage exampleOnState).message = some exampleMessage.to_dict ∧
    (getCurrentMessage exampleOffSelState).message = Option.none ∧
    (getCurrentMessage exampleOffSelState).off = true := by
  refine ⟨?_, ?_, ?_⟩
  · exact (getCurrentMessage_characterisation exampleOnState).2.2.2.1
      exampleMessage rfl rfl
  · exact (getCurrentMessage_characterisation exampleOffSelState).2.2.1
      exampleMessage rfl rfl
  · exact ((getCurrentMessage_characterisation exampleOffSelState).2.1).mpr
      ⟨by simp [exampleOffSelState], rfl⟩

/-- Claim C4: on a plugin with no stored messages, `delete_message` is not a
silent no-op — the unconditional debug-log line reads the loop variable
`msg`, which was never bound, so the call raises `NameError` instead of
returning `False` (the state is nevertheless unchanged, as the removals run
before the log line). -/
theorem deleteMessage_empty_raises :
    deleteMessage emptyPluginState "x" =
      (emptyPluginState, false, some PyError.nameError) := by
  rfl

/-- After the config loop of `add_or_replace_message` finds a match, the
updated list contains a dict with the matched uuid carrying the new text and
the reset validity window. -/
theorem replaceInConfig_exists (ds : List Dict) (uid text : String) (start endT : Int)
    (h : ds.any (fun d => dictGet d "uuid" = some (Value.vstr uid)) = true) :
    ∃ d ∈ replaceInConfig ds uid text start endT,
      dictGet d "uuid" = some (Value.vstr uid) ∧
      dictGet d "message" = some (Value.vstr text) ∧
      dictGet d "start" = some (Value.vint start) ∧
      dictGet d "end" = some (Value.vint endT) := by
  induction ds with
  | nil => simp at h
  | cons d rest ih =>
      by_cases hd : dictGet d "uuid" = some (Value.vstr uid)
      · refine ⟨dictSet (dictSet (dictSet d "message" (Value.vstr text))
          "start" (Value.vint start)) "end" (Value.vint endT), ?_, ?_, ?_, ?_, ?_⟩
        · simp [replaceInConfig, hd]
        · rw [dictGet_dictSet_ne _ _ _ _ (by decide), dictGet_dictSet_ne _ _ _ _ (by decide),
            dictGet_dictSet_ne _ _ _ _ (by decide)]
          exact hd
        · rw [dictGet_dictSet_ne _ _ _ _ (by decide), dictGet_dictSet_ne _ _ _ _ (by decide)]
          exact dictGet_dictSet_same _ _ _
        · rw [dictGet_dictSet_ne _ _ _ _ (by decide)]
          exact dictGet_dictSet_same _ _ _
        · exact dictGet_dictSet_same _ _ _
      · have h' : rest.any (fun d => dictGet d "uuid" = some (Value.vstr uid)) = true := by
          simp [hd] at h
          simpa using h
        obtain ⟨d', hmem, hprops⟩ := ih h'
        exact ⟨d', by simp [replaceInConfig, hd, hmem], hprops⟩

/-- Every in-memory message still carrying the replaced uuid after the
memory loop of `add_or_replace_message` holds the new text and window. -/
theorem replaceInMessages_updated (ms : List Message) (uid text : String)
    (start endT : Int) :
    ∀ m ∈ replaceInMessages ms uid text start endT, m.uuid = Value.vstr uid →
      m.message = Value.vstr text ∧ m.start = Value.vint start ∧
      m.endTime = Value.vint endT := by
  intro m hm hu
  simp only [replaceInMessages, List.mem_map] at hm
  obtain ⟨m0, hm0, hEq⟩ := hm
  by_cases h0 : m0.uuid = Value.vstr uid
  · rw [if_pos h0] at hEq
    subst hEq
    exact ⟨rfl, rfl, rfl⟩
  · rw [if_neg h0] at hEq
    subst hEq
    exact absurd hu h0

/-- Claim C5: `add_or_replace_message(text, uuid)` returns true when the
uuid matches a stored message; it then rewrites that config entry's text and
resets its window to [now, now+604800], rewrites every matching in-memory
message the same way, and clears the currently-shown reference.  When the
uuid matches nothing it returns false and appends to both the configuration
and memory a new `Message` carrying exactly the caller-supplied uuid,
whatever uuid the constructor generated. -/
theorem addOrReplaceMessage_spec (s : PluginState) (text uid : String) (now : Int)
    (g : String) :
    (s.configMessages.any (fun d => dictGet d "uuid" = some (Value.vstr uid)) = true →
      (addOrReplaceMessage s text uid now g).2 = true ∧
      (s.messages.any (fun m => m.uuid = Value.vstr uid) = true →
        (addOrReplaceMessage s text uid now g).1.currentMessage = Option.none) ∧
      (∃ d ∈ (addOrReplaceMessage s text uid now g).1.configMessages,
        dictGet d "uuid" = some (Value.vstr uid) ∧
        dictGet d "message" = some (Value.vstr text) ∧
        dictGet d "start" = some (Value.vint now) ∧
        dictGet d "end" = some (Value.vint (now + 604800))) ∧
      (∀ m ∈ (addOrReplaceMessage s text uid now g).1.messages,
        m.uuid = Value.vstr uid →
        m.message = Value.vstr text ∧ m.start = Value.vint now ∧
        m.endTime = Value.vint (now + 604800))) ∧
    (s.configMessages.any (fun d => dictGet d "uuid" = some (Value.vstr uid)) = false →
      (addOrReplaceMessage s text uid now g).2 = false ∧
      (addOrReplaceMessage s text uid now g).1.messages =
        s.messages ++ [{ Message.init (Value.vstr text) (Value.vint now)
          (Value.vint (now + 604800)) g with uuid := Value.vstr uid }] ∧
      (addOrReplaceMessage s text uid now g).1.configMessages =
        s.configMessages ++ [Message.to_dict { Message.init (Value.vstr text)
          (Value.vint now) (Value.vint (now + 604800)) g with
          uuid := Value.vstr uid }]) := by
  constructor
  · intro h
    refine ⟨by simp [addOrReplaceMessage, h], fun hm => ?_, ?_, ?_⟩
    · simp [addOrReplaceMessage, h, hm]
    · simpa [addOrReplaceMessage, h] using
        replaceInConfig_exists s.configMessages uid text now (now + 604800) h
    · intro m hm hu
      have hm' : m ∈ replaceInMessages s.messages uid text now (now + 604800) := by
        simpa [addOrReplaceMessage, h] using hm
      exact replaceInMessages_updated s.messages uid text now (now + 604800) m hm' hu
  · intro h
    refine ⟨by simp [addOrReplaceMessage, h], by simp [addOrReplaceMessage, h],
      by simp [addOrReplaceMessage, h]⟩

/-- Claim C5 witness: replacing the stored uuid `"u1"` succeeds and clears
the currently-shown reference; a non-existent uuid reports `false`. -/
theorem addOrReplaceMessage_spec_witness :
    ((addOrReplaceMessage exampleOnState "bye" "u1" 50 "gen").2 = true ∧
      (addOrReplaceMessage exampleOnState "bye" "u1" 50 "gen").1.currentMessage =
        Option.none) ∧
    (addOrReplaceMessage emptyPluginState "bye" "u9" 50 "gen").2 = false :=
  ⟨⟨((addOrReplaceMessage_spec exampleOnState "bye" "u1" 50 "gen").1 (by decide)).1,
    ((addOrReplaceMessage_spec exampleOnState "bye" "u1" 50 "gen").1 (by decide)).2.1
      (by decide)⟩,
   ((addOrReplaceMessage_spec emptyPluginState "bye" "u9" 50 "gen").2 (by decide)).1⟩

/-- A string of length 0 is the empty string (`len(speed) == 0` check). -/
theorem stringLenZero {s : String} (h : s.length = 0) : s = "" := by
  cases s with
  | mk data =>
      have hd : data = [] := List.length_eq_zero.mp h
      subst hd
      rfl

/-- Claim C6: `save_configuration` raises MissingParameter on an absent
duration, InvalidParameter on a duration outside [5, 60], MissingParameter
on an absent or empty speed, InvalidParameter on a speed outside the table;
otherwise it succeeds, persisting both fields, pushing the table delay to
the driver and restarting the display task at the new duration. -/
theorem saveConfiguration_validation (d : Rat) (s : String) :
    (saveConfiguration Option.none (some s) = Except.error ConfigError.missingParameter) ∧
    (saveConfiguration Option.none Option.none = Except.error ConfigError.missingParameter) ∧
    (d < 5 ∨ 60 < d →
      saveConfiguration (some d) (some s) = Except.error ConfigError.invalidParameter) ∧
    (5 ≤ d → d ≤ 60 →
      saveConfiguration (some d) Option.none = Except.error ConfigError.missingParameter) ∧
    (5 ≤ d → d ≤ 60 →
      saveConfiguration (some d) (some "") = Except.error ConfigError.missingParameter) ∧
    (5 ≤ d → d ≤ 60 → s ≠ "" → SPEEDS.lookup s = Option.none →
      saveConfiguration (some d) (some s) = Except.error ConfigError.invalidParameter) ∧
    (∀ delay, 5 ≤ d → d ≤ 60 → SPEEDS.lookup s = some delay →
      saveConfiguration (some d) (some s) =
        Except.ok { duration := d, speed := s, scrollSpeed := delay, taskPeriod := d }) := by
  refine ⟨rfl, rfl, fun h => ?_, fun h5 h60 => ?_, fun h5 h60 => ?_,
    fun h5 h60 hne hlook => ?_, fun delay h5 h60 hlook => ?_⟩
  · simp only [saveConfiguration]
    rw [if_pos h]
  · simp only [saveConfiguration]
    rw [if_neg (by rw [not_or]; exact ⟨not_lt.mpr h5, not_lt.mpr h60⟩)]
  · simp only [saveConfiguration]
    rw [if_neg (by rw [not_or]; exact ⟨not_lt.mpr h5, not_lt.mpr h60⟩)]
    simp
  · have hlen : ¬ s.length = 0 := fun hl => hne (stringLenZero hl)
    simp only [saveConfiguration]
    rw [if_neg (by rw [not_or]; exact ⟨not_lt.mpr h5, not_lt.mpr h60⟩), if_neg hlen, hlook]
  · have hlen : ¬ s.length = 0 := by
      intro hl
      rw [stringLenZero hl] at hlook
      simp [SPEEDS, List.lookup] at hlook
    simp only [saveConfiguration]
    rw [if_neg (by rw [not_or]; exact ⟨not_lt.mpr h5, not_lt.mpr h60⟩), if_neg hlen, hlook]

/-- Claim C6 witness: the spec's test vector — duration 4 and 61 rejected as
InvalidParameter, missing duration as MissingParameter, speed "turbo" as
InvalidParameter, empty speed as MissingParameter, and (30, "fast")
accepted with delay 0.0075 and a 30-second task period. -/
theorem saveConfiguration_validation_witness :
    saveConfiguration (some 4) (some "fast") = Except.error ConfigError.invalidParameter ∧
    saveConfiguration (some 61) (some "fast") = Except.error ConfigError.invalidParameter ∧
    saveConfiguration Option.none (some "fast") = Except.error ConfigError.missingParameter ∧
    saveConfiguration (some 30) (some "turbo") = Except.error ConfigError.invalidParameter ∧
    saveConfiguration (some 30) (some "") = Except.error ConfigError.missingParameter ∧
    saveConfiguration (some 30) (some "fast") =
      Except.ok { duration := 30, speed := "fast", scrollSpeed := 3/400, taskPeriod := 30 } :=
  ⟨(saveConfiguration_validation 4 "fast").2.2.1 (Or.inl (by norm_num)),
   (saveConfiguration_validation 61 "fast").2.2.1 (Or.inr (by norm_num)),
   (saveConfiguration_validation 0 "fast").1,
   (saveConfiguration_validation 30 "turbo").2.2.2.2.2.1 (by norm_num) (by norm_num)
     (by decide) rfl,
   (saveConfiguration_validation 30 "x").2.2.2.2.1 (by norm_num) (by norm_num),
   (saveConfiguration_validation 30 "fast").2.2.2.2.2.2 (3/400) (by norm_num)
     (by norm_num) rfl⟩

/-- Claim C7: an all-zero payload with the panel's cleared flag set is
elided (no SPI transaction, flag unchanged); an all-zero payload with the
flag clear is transmitted and sets the flag; a non-zero payload is
transmitted and clears the flag.  Consequently, starting from the flag
state any non-zero write leaves behind, two consecutive all-zero writes
issue exactly one transaction, and a non-zero write followed by an all-zero
write issues two. -/
theorem writePixels_suppression :
    (∀ p : List Nat, p.length = 32 →
      (pixelPayload p).all (fun b => b == 0) = true →
      writePixelsToPanel true p = (false, true)) ∧
    (∀ p : List Nat, p.length = 32 →
      (pixelPayload p).all (fun b => b == 0) = true →
      writePixelsToPanel false p = (true, true)) ∧
    (∀ (p : List Nat) (c : Bool), p.length = 32 →
      (pixelPayload p).all (fun b => b == 0) = false →
      writePixelsToPanel c p = (true, false)) ∧
    (∀ z1 z2 : List Nat, z1.length = 32 → z2.length = 32 →
      (pixelPayload z1).all (fun b => b == 0) = true →
      (pixelPayload z2).all (fun b => b == 0) = true →
      (runPanelWrites false [z1, z2]).1 = 1) ∧
    (∀ (q z : List Nat) (c : Bool), q.length = 32 → z.length = 32 →
      (pixelPayload q).all (fun b => b == 0) = false →
      (pixelPayload z).all (fun b => b == 0) = true →
      (runPanelWrites c [q, z]).1 = 2) := by
  refine ⟨fun p _ hz => ?_, fun p _ hz => ?_, fun p c _ hnz => ?_,
    fun z1 z2 _ _ hz1 hz2 => ?_, fun q z c _ _ hnz hz => ?_⟩
  · simp [writePixelsToPanel, hz]
  · simp [writePixelsToPanel, hz]
  · simp [writePixelsToPanel, hnz]
  · simp [runPanelWrites, writePixelsToPanel, hz1, hz2]
  · simp [runPanelWrites, writePixelsToPanel, hnz, hz]

/-- Claim C7 witness: with the 32-byte all-zero and all-0xFF buffers — the
all-zero write on a cleared panel is elided, on a non-cleared panel it is
transmitted; the 0xFF write always transmits; the two claimed transaction
counts hold. -/
theorem writePixels_suppression_witness :
    writePixelsToPanel true (List.replicate 32 0) = (false, true) ∧
    writePixelsToPanel false (List.replicate 32 0) = (true, true) ∧
    writePixelsToPanel true (List.replicate 32 255) = (true, false) ∧
    (runPanelWrites false [List.replicate 32 0, List.replicate 32 0]).1 = 1 ∧
    (runPanelWrites true [List.replicate 32 255, List.replicate 32 0]).1 = 2 :=
  ⟨writePixels_suppression.1 (List.replicate 32 0) (by decide) (by decide),
   writePixels_suppression.2.1 (List.replicate 32 0) (by decide) (by decide),
   writePixels_suppression.2.2.1 (List.replicate 32 255) true (by decide) (by decide),
   writePixels_suppression.2.2.2.1 (List.replicate 32 0) (List.replicate 32 0)
     (by decide) (by decide) (by decide) (by decide),
   writePixels_suppression.2.2.2.2 (List.replicate 32 255) (List.replicate 32 0) true
     (by decide) (by decide) (by decide) (by decide)⟩

/-- ASCII characters other than the placeholder render their glyph-table
entry (the try-block succeeds: decode yields the code point, which is in
range of the 177-entry table). -/
theorem appendLetterColumns_ascii :
    ∀ c, c < 128 → c ≠ 94 → appendLetterColumns c = FONT5x7.getD c [] := by
  decide

/-- Every glyph-table entry for code points 32-127 is a 5-byte bitmap. -/
theorem font_printable_width :
    ∀ c, c < 128 → 32 ≤ c → (FONT5x7.getD c []).length = 5 := by
  decide

/-- Control codes 0-31 render no columns at all: their table entries are
empty lists, and an empty list raises nothing. -/
theorem appendLetterColumns_ctrl :
    ∀ c, c < 32 → appendLetterColumns c = [] := by
  decide

/-- Claim C2 counterexample: the newline character (code point 10) has no
glyph in the table (its entry is the empty list) and its decode succeeds,
yet `__append_letter` appends nothing — not the fixed invalid glyph — so it
contributes 0 columns, not 5. -/
theorem font_fallback_counterexample :
    (10 : Nat) ≠ PATTERN_REPLACEMENT_CODE ∧
    pyDecodeSingleChar 10 = some 10 ∧
    FONT5x7.getD 10 [] = [] ∧
    appendLetterColumns 10 = [] ∧
    appendLetterColumns 10 ≠ FONT_INVALID ∧
    (appendLetterColumns 10).length = 0 := by
  decide

/-- Claim C2 amended: a non-placeholder character renders the fixed invalid
glyph (5 columns) exactly when its single-byte UTF-8 decode fails, i.e. for
code points at or above 128; an ASCII character renders its table entry,
which is a 5-byte glyph for code points 32-127 but empty — contributing
zero columns — for the control codes 0-31 whose table entries are empty. -/
theorem font_fallback_behaviour (c : Nat) (hc : c ≠ PATTERN_REPLACEMENT_CODE) :
    (128 ≤ c → appendLetterColumns c = FONT_INVALID ∧
      (appendLetterColumns c).length = 5) ∧
    (c ≤ 127 → appendLetterColumns c = FONT5x7.getD c []) ∧
    (32 ≤ c → c ≤ 127 → (appendLetterColumns c).length = 5) ∧
    (c < 32 → appendLetterColumns c = []) := by
  refine ⟨fun h128 => ?_, fun h127 => ?_, fun h32 h127 => ?_, fun hlt => ?_⟩
  · have hno : ¬ c ≤ 127 := by omega
    constructor
    · simp [appendLetterColumns, pyDecodeSingleChar, hc, hno]
    · simp [appendLetterColumns, pyDecodeSingleChar, hc, hno, FONT_INVALID]
  · exact appendLetterColumns_ascii c (by omega) hc
  · rw [appendLetterColumns_ascii c (by omega) hc]
    exact font_printable_width c (by omega) h32
  · exact appendLetterColumns_ctrl c hlt

/-- Claim C2 witness: `é` (code point 233) fails the single-byte decode and
renders the invalid glyph; `a` (97) renders 5 columns; TAB (9) renders
nothing. -/
theorem font_fallback_behaviour_witness :
    appendLetterColumns 233 = FONT_INVALID ∧
    (appendLetterColumns 97).length = 5 ∧
    appendLetterColumns 9 = [] :=
  ⟨((font_fallback_behaviour 233 (by decide)).1 (by decide)).1,
   (font_fallback_behaviour 97 (by decide)).2.2.1 (by decide) (by decide),
   (font_fallback_behaviour 9 (by decide)).2.2.2 (by decide)⟩

/-- With no recorded patterns the walk is the concatenation of the per
character letter columns, independently of the running index. -/
theorem messageWalkFrom_nil_patterns (msg : List Nat) :
    ∀ i, messageWalkFrom [] msg i = (msg.map appendLetterColumns).flatten := by
  induction msg with
  | nil => intro i; rfl
  | cons c rest ih =>
      intro i
      simp [messageWalkFrom, List.lookup, ih]

/-- The length walk of `__get_message_length` computes the length of the
column buffer the fill walk would produce. -/
theorem messageLengthFrom_eq (patterns : List (Nat × PatternEntry)) (msg : List Nat) :
    ∀ i, messageLengthFrom patterns msg i = (messageWalkFrom patterns msg i).length := by
  induction msg with
  | nil => intro i; rfl
  | cons c rest ih =>
      intro i
      simp only [messageLengthFrom, messageWalkFrom, List.length_append, ih]
      cases patterns.lookup i <;> rfl

/-- Claim C10: the pattern placeholder `'^'` contributes no columns when it
is not a recorded pattern start — `__append_letter` skips it — so deleting
such a caret from the message changes neither the rendered column buffer
nor the computed message length; in particular "a^b" renders exactly the
columns of "ab". -/
theorem caret_contributes_nothing :
    (appendLetterColumns PATTERN_REPLACEMENT_CODE = []) ∧
    (∀ xs ys : List Nat,
      messageColumns [] (xs ++ PATTERN_REPLACEMENT_CODE :: ys) =
        messageColumns [] (xs ++ ys) ∧
      getMessageLength [] (xs ++ PATTERN_REPLACEMENT_CODE :: ys) =
        getMessageLength [] (xs ++ ys)) ∧
    (messageColumns [] [97, 94, 98] = messageColumns [] [97, 98]) := by
  have h94 : appendLetterColumns PATTERN_REPLACEMENT_CODE = [] := rfl
  refine ⟨h94, fun xs ys => ?_, ?_⟩
  · have hcols : messageColumns [] (xs ++ PATTERN_REPLACEMENT_CODE :: ys) =
        messageColumns [] (xs ++ ys) := by
      simp [messageColumns, messageWalkFrom_nil_patterns, h94]
    refine ⟨hcols, ?_⟩
    simp only [getMessageLength, messageLengthFrom_eq]
    exact congrArg List.length hcols
  · decide
